import Mathlib

/-!
Verification of the Dimension Data compute driver
(`libcloud/compute/drivers/dimensiondata.py`).

The driver translates between a cloud provider's namespaced-XML wire
protocol and a normalized in-memory model of compute resources.  We give a
shallow embedding of the driver's pure logic: XML documents are a
first-order tree type, the authenticated HTTP transport is a parameter
`conn : Request → Xml` (the response document returned by the provider for
a given request), and Python runtime failures (AttributeError on `None`,
IndexError on an empty list, ValueError from `int(...)`) are modelled with
`Except PyErr`.
-/

namespace DD

/-- An XML element as seen by Python's ElementTree: a tag, an attribute
list, optional text, and a list of child elements.  Tags are stored
namespace-qualified, mirroring ElementTree's `{namespace}localname`
convention (we render the qualification as `namespace ++ ":" ++ localname`). -/
inductive Xml where
  | elem : String → List (String × String) → Option String → List Xml → Xml

def Xml.tag : Xml → String
  | .elem t _ _ _ => t

def Xml.attrs : Xml → List (String × String)
  | .elem _ a _ _ => a

def Xml.textOpt : Xml → Option String
  | .elem _ _ s _ => s

def Xml.children : Xml → List Xml
  | .elem _ _ _ c => c

/-- Python `element.get(attrName)`: the attribute's value, or `None` when
the attribute is absent (first binding wins, as in a dict). -/
def Xml.get (e : Xml) (a : String) : Option String :=
  (e.attrs.find? (fun p => p.1 == a)).map (fun p => p.2)

/-- All elements reached from `es` by following a (qualified) tag path, in
document order. -/
def findAllFrom (es : List Xml) : List String → List Xml
  | [] => es
  | t :: rest =>
      findAllFrom ((es.map (fun e => e.children.filter (fun c => c.tag == t))).flatten) rest

/-- ElementTree `element.findall(path)` for an already-qualified path. -/
def Xml.findallQ (e : Xml) (path : List String) : List Xml :=
  findAllFrom [e] path

/-- ElementTree `element.find(path)`: first match in document order, or
`None`. -/
def Xml.find (e : Xml) (path : List String) : Option Xml :=
  (e.findallQ path).head?

/-- Modelled from the spec: the `types` namespace URN used by the
organization-scoped action API (`TYPES_URN` lives in
`libcloud/common/dimensiondata.py`, which is not part of this tree; the
spec only requires a fixed versioned namespace constant). -/
def TYPES_URN : String := "urn:didata.com:api:cloud:types"

/-- Modelled from the spec: the legacy `server` namespace
(`SERVER_NS` in `libcloud/common/dimensiondata.py`). -/
def SERVER_NS : String := "http://oec.api.opsource.net/schemas/server"

/-- Modelled from the spec: the generic `network` namespace
(`NETWORK_NS` in `libcloud/common/dimensiondata.py`). -/
def NETWORK_NS : String := "http://oec.api.opsource.net/schemas/network"

/-- Modelled from the spec: `libcloud.utils.xml.fixxpath` — namespace-
qualify every step of an xpath (a given low-level XML query primitive not
part of this tree). -/
def fixxpath (xpath : List String) (ns : String) : List String :=
  xpath.map (fun t => ns ++ ":" ++ t)

/-- Modelled from the spec: `libcloud.utils.xml.findtext` — the text of
the first element matching the namespaced path, `None` when no element
matches; an element present but without text yields the empty string
(ElementTree `findtext` semantics). -/
def findtext (e : Xml) (xpath : List String) (ns : String) : Option String :=
  (e.find (fixxpath xpath ns)).map (fun m => m.textOpt.getD "")

/-- Modelled from the spec: `libcloud.utils.xml.findall` — all elements
matching the namespaced path. -/
def findall (e : Xml) (xpath : List String) (ns : String) : List Xml :=
  e.findallQ (fixxpath xpath ns)

/-- A Python runtime failure surfaced by the driver code. -/
inductive PyErr where
  | attributeError
  | typeError
  | valueError : String → PyErr
  | indexError
deriving DecidableEq, Repr

/-- Accumulate decimal digits; fails on a non-digit character. -/
def parseDigitsAux : List Char → Nat → Option Nat
  | [], acc => some acc
  | c :: cs, acc =>
      if c.isDigit then parseDigitsAux cs (acc * 10 + (c.toNat - 48)) else none

/-- A non-empty all-digit character list, as a number. -/
def parseDigits : List Char → Option Nat
  | [] => none
  | cs => parseDigitsAux cs 0

/-- Strip leading whitespace. -/
def dropSpaces (cs : List Char) : List Char :=
  cs.dropWhile (fun c => c.isWhitespace)

/-- Python `int(...)` over the characters of a string: optional
surrounding whitespace, optional sign, decimal digits. -/
def pyIntChars (cs : List Char) : Option Int :=
  match dropSpaces ((dropSpaces cs.reverse).reverse) with
  | '-' :: rest => (parseDigits rest).map (fun n => -(n : Int))
  | '+' :: rest => (parseDigits rest).map (fun n => (n : Int))
  | rest => (parseDigits rest).map (fun n => (n : Int))

/-- Python `int(s)` on the result of a `findtext`: `int(None)` raises
`TypeError`; a non-numeric string raises `ValueError`. -/
def pyInt (s : Option String) : Except PyErr Int :=
  match s with
  | none => .error .typeError
  | some s =>
      match pyIntChars s.data with
      | none => .error (.valueError "invalid literal for int")
      | some n => .ok n

/-- Python `optElem.get(attr)`: raises `AttributeError` when the element
itself is `None`; otherwise the attribute value (possibly `None`). -/
def getAttrElem (e : Option Xml) (a : String) : Except PyErr (Option String) :=
  match e with
  | none => .error .attributeError
  | some e => .ok (e.get a)

/-- One signed HTTP exchange issued through the Connection collaborator. -/
structure Request where
  path : String
  method : String
  data : Option Xml

/-- `libcloud.compute.types.NodeState` (external enum; only the
constructors are relevant here). -/
inductive NodeState where
  | running
  | rebooting
  | terminated
  | pending
  | stopped
  | unknown
deriving DecidableEq, Repr

/-- `DimensionDataStatus` (progress metadata of an in-flight operation);
all fields optional, absent subtree yields the all-`none` default. -/
structure DimensionDataStatus where
  action : Option String := none
  request_time : Option String := none
  user_name : Option String := none
  number_of_steps : Option String := none
  step_name : Option String := none
  step_number : Option String := none
  step_percent_complete : Option String := none
  failure_reason : Option String := none
deriving DecidableEq, Repr

/-- The `extra` map attached to a mapped Node (source `_to_node`). -/
structure NodeExtra where
  description : Option String
  sourceImageId : Option String
  networkId : Option String
  networkDomainId : Option String
  datacenterId : Option String
  deployedTime : Option String
  cpuCount : Int
  memoryMb : Int
  OS_id : Option String
  OS_type : Option String
  OS_displayName : Option String
  status : DimensionDataStatus
  password : Option String := none
deriving DecidableEq, Repr

/-- A mapped compute node (`libcloud.compute.base.Node`, the fields this
driver populates). -/
structure Node where
  id : Option String
  name : Option String
  state : NodeState
  public_ips : List String
  private_ips : List String
  extra : NodeExtra
deriving DecidableEq, Repr

/-- `[x] if x is not None else []` (source lines building the IP lists). -/
def optList : Option String → List String
  | some s => [s]
  | none => []

/-- The node id as it appears interpolated into a URL path
(`'server/server/%s' % id`: Python renders `None` as the string "None"). -/
def idStr : Option String → String
  | some s => s
  | none => "None"

/-- Source `_to_status`: absent element yields the default status. -/
def _to_status (element : Option Xml) : DimensionDataStatus :=
  match element with
  | none => {}
  | some e =>
      { action := findtext e ["action"] TYPES_URN
        request_time := findtext e ["requestTime"] TYPES_URN
        user_name := findtext e ["userName"] TYPES_URN
        number_of_steps := findtext e ["numberOfSteps"] TYPES_URN
        step_name := findtext e ["step", "name"] TYPES_URN
        step_number := findtext e ["step_number"] TYPES_URN
        step_percent_complete := findtext e ["step", "percentComplete"] TYPES_URN
        failure_reason := findtext e ["failureReason"] TYPES_URN }

/-- Whether the Node element has a `networkInfo` subtree
(source: `element.find(fixxpath('networkInfo', TYPES_URN)) is not None`). -/
def hasNetworkInfo (element : Xml) : Bool :=
  (element.find (fixxpath ["networkInfo"] TYPES_URN)).isSome

/-- Source `_to_node`, `networkDomainId` entry of the extra dict:
`element.find(...).get('networkDomainId') if has_network_info else None`. -/
def networkDomainIdOf (element : Xml) : Option String :=
  match element.find (fixxpath ["networkInfo"] TYPES_URN) with
  | some ni => ni.get "networkDomainId"
  | none => none

/-- Source `_to_node`, construction of the `extra` dict.  The fallible
steps (in the dict-literal's evaluation order) are the two `int(...)`
coercions and the three attribute reads on the `operatingSystem` element. -/
def buildExtra (element : Xml) (status : DimensionDataStatus) : Except PyErr NodeExtra :=
  match pyInt (findtext element ["cpuCount"] TYPES_URN) with
  | .error err => .error err
  | .ok cpu =>
  match pyInt (findtext element ["memoryGb"] TYPES_URN) with
  | .error err => .error err
  | .ok gb =>
  match getAttrElem (element.find (fixxpath ["operatingSystem"] TYPES_URN)) "id" with
  | .error err => .error err
  | .ok os_id =>
  match getAttrElem (element.find (fixxpath ["operatingSystem"] TYPES_URN)) "family" with
  | .error err => .error err
  | .ok os_family =>
  match getAttrElem (element.find (fixxpath ["operatingSystem"] TYPES_URN)) "displayName" with
  | .error err => .error err
  | .ok os_display =>
      .ok { description := findtext element ["description"] TYPES_URN
            sourceImageId := findtext element ["sourceImageId"] TYPES_URN
            networkId := findtext element ["networkId"] TYPES_URN
            networkDomainId := networkDomainIdOf element
            datacenterId := element.get "datacenterId"
            deployedTime := findtext element ["createTime"] TYPES_URN
            cpuCount := cpu
            memoryMb := gb * 1024
            OS_id := os_id
            OS_type := os_family
            OS_displayName := os_display
            status := status }

/-- Source `_to_node`, private-IP extraction: when a `networkInfo` subtree
exists read `networkInfo/primaryNic/@privateIpv4`, else read
`nic/@privateIpv4`; the `.get` on a missing element raises. -/
def readPrivateIp (element : Xml) : Except PyErr (Option String) :=
  if hasNetworkInfo element then
    getAttrElem (element.find (fixxpath ["networkInfo", "primaryNic"] TYPES_URN)) "privateIpv4"
  else
    getAttrElem (element.find (fixxpath ["nic"] TYPES_URN)) "privateIpv4"

/-- Source `_to_node`: map one Server XML element to a Node. -/
def _to_node (element : Xml) : Except PyErr Node :=
  let state : NodeState :=
    if findtext element ["started"] TYPES_URN == some "true" then .running else .terminated
  let status := _to_status (element.find (fixxpath ["progress"] TYPES_URN))
  match buildExtra element status with
  | .error err => .error err
  | .ok extra =>
  match readPrivateIp element with
  | .error err => .error err
  | .ok private_ip =>
      .ok { id := element.get "id"
            name := findtext element ["name"] TYPES_URN
            state := state
            public_ips := optList (findtext element ["publicIpAddress"] TYPES_URN)
            private_ips := optList private_ip
            extra := extra }

/-- Request built by `destroy_node`. -/
def deleteServerReq (node : Node) : Request :=
  { path := "server/deleteServer", method := "POST"
    data := some (.elem "deleteServer" [("xmlns", TYPES_URN), ("id", idStr node.id)] none []) }

/-- Source `destroy_node`: POST the `deleteServer` element, then classify
the response's `responseCode` text. -/
def destroy_node (conn : Request → Xml) (node : Node) : Bool :=
  findtext (conn (deleteServerReq node)) ["responseCode"] TYPES_URN == some "IN_PROGRESS"

/-- Request built by `reboot_node`. -/
def rebootServerReq (node : Node) : Request :=
  { path := "server/rebootServer", method := "POST"
    data := some (.elem "rebootServer" [("xmlns", TYPES_URN), ("id", idStr node.id)] none []) }

/-- Source `reboot_node`. -/
def reboot_node (conn : Request → Xml) (node : Node) : Bool :=
  findtext (conn (rebootServerReq node)) ["responseCode"] TYPES_URN == some "IN_PROGRESS"

/-- Request built by `ex_start_node`. -/
def startServerReq (node : Node) : Request :=
  { path := "server/startServer", method := "POST"
    data := some (.elem "startServer" [("xmlns", TYPES_URN), ("id", idStr node.id)] none []) }

/-- Source `ex_start_node`. -/
def ex_start_node (conn : Request → Xml) (node : Node) : Bool :=
  findtext (conn (startServerReq node)) ["responseCode"] TYPES_URN == some "IN_PROGRESS"

/-- Request built by `ex_shutdown_graceful`. -/
def shutdownServerReq (node : Node) : Request :=
  { path := "server/shutdownServer", method := "POST"
    data := some (.elem "shutdownServer" [("xmlns", TYPES_URN), ("id", idStr node.id)] none []) }

/-- Source `ex_shutdown_graceful`. -/
def ex_shutdown_graceful (conn : Request → Xml) (node : Node) : Bool :=
  findtext (conn (shutdownServerReq node)) ["responseCode"] TYPES_URN == some "IN_PROGRESS"

/-- Request built by `ex_power_off`. -/
def powerOffServerReq (node : Node) : Request :=
  { path := "server/powerOffServer", method := "POST"
    data := some (.elem "powerOffServer" [("xmlns", TYPES_URN), ("id", idStr node.id)] none []) }

/-- Source `ex_power_off`. -/
def ex_power_off (conn : Request → Xml) (node : Node) : Bool :=
  findtext (conn (powerOffServerReq node)) ["responseCode"] TYPES_URN == some "IN_PROGRESS"

/-- Request built by `ex_reset`. -/
def resetServerReq (node : Node) : Request :=
  { path := "server/resetServer", method := "POST"
    data := some (.elem "resetServer" [("xmlns", TYPES_URN), ("id", idStr node.id)] none []) }

/-- Source `ex_reset`. -/
def ex_reset (conn : Request → Xml) (node : Node) : Bool :=
  findtext (conn (resetServerReq node)) ["responseCode"] TYPES_URN == some "IN_PROGRESS"

/-- `libcloud.common.dimensiondata.DimensionDataNetwork` (external entity
class; `create_node` uses only its `id`). -/
structure DimensionDataNetwork where
  id : String
  name : String
deriving DecidableEq, Repr

/-- `libcloud.common.dimensiondata.DimensionDataNetworkDomain`. -/
structure DimensionDataNetworkDomain where
  id : String
  name : String
deriving DecidableEq, Repr

/-- `libcloud.common.dimensiondata.DimensionDataVlan`. -/
structure DimensionDataVlan where
  id : String
  name : String
deriving DecidableEq, Repr

/-- A dynamically-typed Python argument as passed for `ex_network` /
`ex_network_domain`: `None`, a well-typed entity object, or an object of
some other class (`other`). -/
inductive PyValue where
  | pyNone
  | network : DimensionDataNetwork → PyValue
  | networkDomain : DimensionDataNetworkDomain → PyValue
  | other : String → PyValue
deriving DecidableEq, Repr

/-- `isinstance(v, DimensionDataNetwork)`. -/
def isNetwork : PyValue → Bool
  | .network _ => true
  | _ => false

/-- `isinstance(v, DimensionDataNetworkDomain)`. -/
def isNetworkDomain : PyValue → Bool
  | .networkDomain _ => true
  | _ => false

/-- `v is None`. -/
def isPyNone : PyValue → Bool
  | .pyNone => true
  | _ => false

/-- Python attribute access `v.id`: `AttributeError` on `None` or on an
object of a class without an `id` attribute. -/
def PyValue.getId : PyValue → Except PyErr String
  | .network n => .ok n.id
  | .networkDomain d => .ok d.id
  | .pyNone => .error .attributeError
  | .other _ => .error .attributeError

/-- `ex_vlan.id` (raises `AttributeError` when `ex_vlan` is `None`). -/
def vlanIdOf : Option DimensionDataVlan → Except PyErr String
  | some v => .ok v.id
  | none => .error .attributeError

/-- A child element with only text, as built by
`ET.SubElement(parent, tag).text = s`. -/
def mkTextElem (tag : String) (s : String) : Xml :=
  .elem tag [] (some s) []

/-- `str(b).lower()` for a Python bool. -/
def pyBoolStr (b : Bool) : String :=
  if b then "true" else "false"

/-- The arguments of one `create_node` call.  `password` is the password
extracted from the (externally checked) auth object; `generated` is
whether that auth object generated the password itself. -/
structure CreateArgs where
  name : String
  ex_description : String
  image_id : String
  password : String
  generated : Bool
  ex_network : PyValue
  ex_network_domain : PyValue
  ex_vlan : Option DimensionDataVlan
  ex_is_started : Bool

/-- Source `create_node` lines 128-143: build the `deployServer` request
body.  The base fields are appended in source order, then the
`network` element when `ex_network is not None`, then the `networkInfo`
element when `ex_network_domain is not None`. -/
def buildDeployServer (args : CreateArgs) : Except PyErr Xml :=
  let base : List Xml :=
    [ mkTextElem "name" args.name
    , mkTextElem "description" args.ex_description
    , mkTextElem "imageId" args.image_id
    , mkTextElem "start" (pyBoolStr args.ex_is_started)
    , mkTextElem "administratorPassword" args.password ]
  match (if isPyNone args.ex_network then .ok base else
           match args.ex_network.getId with
           | .error err => .error err
           | .ok nid => .ok (base ++ [Xml.elem "network" [] none [mkTextElem "networkId" nid]]) :
         Except PyErr (List Xml)) with
  | .error err => .error err
  | .ok withNet =>
  match (if isPyNone args.ex_network_domain then .ok withNet else
           match args.ex_network_domain.getId with
           | .error err => .error err
           | .ok did =>
             match vlanIdOf args.ex_vlan with
             | .error err => .error err
             | .ok vid =>
               .ok (withNet ++
                 [Xml.elem "networkInfo" [("networkDomainId", did)] none
                   [Xml.elem "primaryNic" [] none [mkTextElem "vlanId" vid]]]) :
         Except PyErr (List Xml)) with
  | .error err => .error err
  | .ok children => .ok (Xml.elem "deployServer" [("xmlns", TYPES_URN)] none children)

/-- Source `create_node` lines 150-153: scan the response's `info`
elements; each one whose `name` attribute is `serverId` overwrites
`node_id` with its `value` attribute (the last match wins). -/
def extractServerId (response : Xml) : Option String :=
  (findall response ["info"] TYPES_URN).foldl
    (fun acc info => if info.get "name" == some "serverId" then info.get "value" else acc)
    none

/-- Request issued by `ex_get_node_by_id`. -/
def getServerReq (id : Option String) : Request :=
  { path := "server/server/" ++ idStr id, method := "GET", data := none }

/-- Source `ex_get_node_by_id`: direct-by-id fetch, then `_to_node`. -/
def ex_get_node_by_id (conn : Request → Xml) (id : Option String) : Except PyErr Node :=
  _to_node (conn (getServerReq id))

/-- Source `create_node` lines 157-158: when the auth object generated
the password itself, attach it to the fetched node's extra data; a
failure from the by-id fetch propagates. -/
def attachPassword (args : CreateArgs) : Except PyErr Node → Except PyErr Node
  | .error err => .error err
  | .ok node =>
      .ok (if args.generated then
             { node with extra := { node.extra with password := some args.password } }
           else node)

/-- Source `create_node`: argument check, request building, submission,
server-id extraction, and the follow-up by-id fetch.  The second
component of the result is the list of requests actually issued through
the Connection, in order. -/
def create_node (conn : Request → Xml) (args : CreateArgs) :
    Except PyErr Node × List Request :=
  if !isNetwork args.ex_network && !isNetworkDomain args.ex_network_domain then
    (.error (.valueError
       "ex_network must be of DimensionDataNetwork type or ex_network_domain must be of DimensionDataNetworkDomain type"),
     [])
  else
    match buildDeployServer args with
    | .error err => (.error err, [])
    | .ok server_elm =>
      let req : Request := { path := "server/deployServer", method := "POST", data := some server_elm }
      let response := conn req
      let node_id := extractServerId response
      let req2 := getServerReq node_id
      (attachPassword args (_to_node (conn req2)), [req, req2])

/-- `libcloud.compute.base.NodeLocation` (the fields this driver
populates in `_to_location`). -/
structure NodeLocation where
  id : Option String
  name : Option String
  country : Option String
deriving DecidableEq, Repr

/-- Source `_to_location`. -/
def _to_location (element : Xml) : NodeLocation :=
  { id := element.get "id"
    name := findtext element ["displayName"] TYPES_URN
    country := findtext element ["country"] TYPES_URN }

/-- Source `_to_locations`: every `datacenter` element of the listing
response, mapped. -/
def _to_locations (object : Xml) : List NodeLocation :=
  (object.findallQ (fixxpath ["datacenter"] TYPES_URN)).map _to_location

/-- Request issued by `list_locations`. -/
def listLocationsReq : Request :=
  { path := "infrastructure/datacenter", method := "GET", data := none }

/-- Source `list_locations`. -/
def list_locations (conn : Request → Xml) : List NodeLocation :=
  _to_locations (conn listLocationsReq)

/-- Source `ex_get_location_by_id`: `None` id short-circuits to `None`
with no remote call; otherwise the freshly fetched location list is
filtered on id equality and indexed at 0 (`IndexError` when no element
matches).  The second component is the list of requests issued. -/
def ex_get_location_by_id (conn : Request → Xml) (id : Option String) :
    Except PyErr (Option NodeLocation) × List Request :=
  match id with
  | none => (.ok none, [])
  | some i =>
      let locs := list_locations conn
      match (locs.filter (fun x => x.id == some i)).head? with
      | none => (.error .indexError, [listLocationsReq])
      | some l => (.ok (some l), [listLocationsReq])

/-- Source `__init__` lines 53-66: reject an unrecognized region before
anything else; otherwise select that region's endpoint from the endpoint
table.  The table (`API_ENDPOINTS`, a dict keyed by region name) is
passed explicitly; the second component is the list of requests issued
during construction (always empty: construction performs no network
activity). -/
def driverInit (endpoints : List (String × String)) (region : String) :
    Except PyErr String × List Request :=
  match endpoints.find? (fun p => p.1 == region) with
  | none => (.error (.valueError ("Invalid region: " ++ region)), [])
  | some p => (.ok p.2, [])

/-- Modelled from the spec: the fixed table of recognized regional API
endpoints (`API_ENDPOINTS` lives in `libcloud/common/dimensiondata.py`,
which is not part of this tree; the spec says only that there are several
fixed named regional endpoints selected by name). -/
def API_ENDPOINTS : List (String × String) :=
  [ ("dd-na", "api-na.dimensiondata.com")
  , ("dd-eu", "api-eu.dimensiondata.com")
  , ("dd-au", "api-au.dimensiondata.com")
  , ("dd-af", "api-mea.dimensiondata.com")
  , ("dd-ap", "api-ap.dimensiondata.com") ]

/-! Sample documents and connections used by the witnesses. -/

/-- Qualified tag in the `types` namespace. -/
def qt (t : String) : String := TYPES_URN ++ ":" ++ t

/-- A response document whose `responseCode` text is `IN_PROGRESS`. -/
def inProgressDoc : Xml :=
  .elem "response" [] none [.elem (qt "responseCode") [] (some "IN_PROGRESS") []]

/-- A response document with no `responseCode` field at all. -/
def emptyDoc : Xml := .elem "response" [] none []

/-- A connection that always acknowledges with `IN_PROGRESS`. -/
def connOK : Request → Xml := fun _ => inProgressDoc

/-- A connection whose responses carry no `responseCode` field. -/
def connNoCode : Request → Xml := fun _ => emptyDoc

/-- A sample extra map. -/
def extra0 : NodeExtra :=
  { description := none, sourceImageId := none, networkId := none
    networkDomainId := none, datacenterId := none, deployedTime := none
    cpuCount := 1, memoryMb := 1024, OS_id := none, OS_type := none
    OS_displayName := none, status := {} }

/-- A sample node. -/
def node0 : Node :=
  { id := some "N1", name := some "n1", state := .running
    public_ips := [], private_ips := [], extra := extra0 }

/-! The claims. -/

/-- Claim C1: every lifecycle action on a node (`destroy_node`,
`reboot_node`, `ex_start_node`, `ex_shutdown_graceful`, `ex_power_off`,
`ex_reset`) returns `true` iff the text of the response document's
`responseCode` field equals the literal string `IN_PROGRESS`; any other
value, or absence of the field (`findtext` returning `none`), yields
`false`. -/
theorem C1_response_code_classification (conn : Request → Xml) (node : Node) :
    (destroy_node conn node = true ↔
      findtext (conn (deleteServerReq node)) ["responseCode"] TYPES_URN = some "IN_PROGRESS") ∧
    (reboot_node conn node = true ↔
      findtext (conn (rebootServerReq node)) ["responseCode"] TYPES_URN = some "IN_PROGRESS") ∧
    (ex_start_node conn node = true ↔
      findtext (conn (startServerReq node)) ["responseCode"] TYPES_URN = some "IN_PROGRESS") ∧
    (ex_shutdown_graceful conn node = true ↔
      findtext (conn (shutdownServerReq node)) ["responseCode"] TYPES_URN = some "IN_PROGRESS") ∧
    (ex_power_off conn node = true ↔
      findtext (conn (powerOffServerReq node)) ["responseCode"] TYPES_URN = some "IN_PROGRESS") ∧
    (ex_reset conn node = true ↔
      findtext (conn (resetServerReq node)) ["responseCode"] TYPES_URN = some "IN_PROGRESS") ∧
    (findtext (conn (deleteServerReq node)) ["responseCode"] TYPES_URN = none →
      destroy_node conn node = false) := by
  refine ⟨?_, ?_, ?_, ?_, ?_, ?_, ?_⟩ <;>
    simp [destroy_node, reboot_node, ex_start_node, ex_shutdown_graceful, ex_power_off,
      ex_reset]
  intro h
  simp [h]

/-- Witness for C1 at concrete connections: an `IN_PROGRESS` response
yields `true`, a response without the field yields `false`. -/
theorem C1_witness :
    destroy_node connOK node0 = true ∧ destroy_node connNoCode node0 = false :=
  ⟨(C1_response_code_classification connOK node0).1.mpr rfl,
   (C1_response_code_classification connNoCode node0).2.2.2.2.2.2 rfl⟩

/-- Claim C2: a `create_node` call in which neither `ex_network` is a
`DimensionDataNetwork` nor `ex_network_domain` is a
`DimensionDataNetworkDomain` is rejected with a `ValueError` before any
request payload is constructed and before any request is sent (the
issued-request list is empty). -/
theorem C2_invalid_network_rejected (conn : Request → Xml) (args : CreateArgs)
    (hnet : isNetwork args.ex_network = false)
    (hdom : isNetworkDomain args.ex_network_domain = false) :
    create_node conn args =
      (.error (.valueError
        "ex_network must be of DimensionDataNetwork type or ex_network_domain must be of DimensionDataNetworkDomain type"),
       []) := by
  simp [create_node, hnet, hdom]

/-- Witness for C2: both network arguments `None`. -/
theorem C2_witness :
    create_node connNoCode
      { name := "web1", ex_description := "d", image_id := "IMG1", password := "pw"
        generated := false, ex_network := .pyNone, ex_network_domain := .pyNone
        ex_vlan := none, ex_is_started := true } =
      (.error (.valueError
        "ex_network must be of DimensionDataNetwork type or ex_network_domain must be of DimensionDataNetworkDomain type"),
       []) :=
  C2_invalid_network_rejected connNoCode _ rfl rfl

/-- Claim C8: an unrecognized region name is rejected at construction
with a `ValueError`, before any network activity (no request issued);
a recognized region selects that region's endpoint from the table. -/
theorem C8_region_check (endpoints : List (String × String)) (region : String) :
    ((∀ p ∈ endpoints, p.1 ≠ region) →
      driverInit endpoints region =
        (.error (.valueError ("Invalid region: " ++ region)), [])) ∧
    ((∃ p ∈ endpoints, p.1 = region) →
      ∃ ep, driverInit endpoints region = (.ok ep, []) ∧ (region, ep) ∈ endpoints) := by
  constructor
  · intro h
    have hfind : endpoints.find? (fun p => p.1 == region) = none := by
      rw [List.find?_eq_none]
      intro a ha
      simpa using h a ha
    simp [driverInit, hfind]
  · rintro ⟨p, hp, hpe⟩
    cases hfind : endpoints.find? (fun q => q.1 == region) with
    | none =>
        rw [List.find?_eq_none] at hfind
        exact absurd (by simpa using hpe) (by simpa using hfind p hp)
    | some q =>
        have hq1 : q.1 = region := by simpa using List.find?_some hfind
        have hqmem : q ∈ endpoints := List.mem_of_find?_eq_some hfind
        refine ⟨q.2, by simp [driverInit, hfind], ?_⟩
        rw [← hq1]
        simpa using hqmem

/-- Witness for C8 on the modelled endpoint table: a bogus region is
rejected, `dd-na` selects its endpoint. -/
theorem C8_witness :
    driverInit API_ENDPOINTS "bogus" =
      (.error (.valueError ("Invalid region: " ++ "bogus")), []) ∧
    ∃ ep, driverInit API_ENDPOINTS "dd-na" = (.ok ep, []) ∧ ("dd-na", ep) ∈ API_ENDPOINTS :=
  ⟨(C8_region_check API_ENDPOINTS "bogus").1 (by decide),
   (C8_region_check API_ENDPOINTS "dd-na").2 ⟨("dd-na", "api-na.dimensiondata.com"), by decide, rfl⟩⟩

/-- Destructor for a successful `_to_node`: the node is built from a
successful `buildExtra`, a successful `readPrivateIp`, and the pure field
reads. -/
theorem _to_node_ok (e : Xml) (n : Node) (h : _to_node e = .ok n) :
    ∃ extra ip,
      buildExtra e (_to_status (e.find (fixxpath ["progress"] TYPES_URN))) = .ok extra ∧
      readPrivateIp e = .ok ip ∧
      n = { id := e.get "id"
            name := findtext e ["name"] TYPES_URN
            state := if findtext e ["started"] TYPES_URN == some "true" then .running
                     else .terminated
            public_ips := optList (findtext e ["publicIpAddress"] TYPES_URN)
            private_ips := optList ip
            extra := extra } := by
  unfold _to_node at h
  dsimp only at h
  cases hb : buildExtra e (_to_status (e.find (fixxpath ["progress"] TYPES_URN))) with
  | error err => rw [hb] at h; simp at h
  | ok extra =>
      rw [hb] at h
      cases hip : readPrivateIp e with
      | error err => rw [hip] at h; simp at h
      | ok ip =>
          rw [hip] at h
          simp only [Except.ok.injEq] at h
          exact ⟨extra, ip, rfl, rfl, h.symm⟩

/-- Destructor for a successful `buildExtra`: the numeric entries come
from the two `int(...)` coercions, with the GB-to-MB conversion. -/
theorem buildExtra_ok (e : Xml) (st : DimensionDataStatus) (x : NodeExtra)
    (h : buildExtra e st = .ok x) :
    pyInt (findtext e ["cpuCount"] TYPES_URN) = .ok x.cpuCount ∧
    ∃ gb, pyInt (findtext e ["memoryGb"] TYPES_URN) = .ok gb ∧ x.memoryMb = gb * 1024 := by
  unfold buildExtra at h
  cases hc : pyInt (findtext e ["cpuCount"] TYPES_URN) with
  | error err => rw [hc] at h; simp at h
  | ok cpu =>
      rw [hc] at h
      cases hg : pyInt (findtext e ["memoryGb"] TYPES_URN) with
      | error err => rw [hg] at h; simp at h
      | ok gb =>
          rw [hg] at h
          cases h1 : getAttrElem (e.find (fixxpath ["operatingSystem"] TYPES_URN)) "id" with
          | error err => rw [h1] at h; simp at h
          | ok os_id =>
              rw [h1] at h
              cases h2 : getAttrElem (e.find (fixxpath ["operatingSystem"] TYPES_URN)) "family" with
              | error err => rw [h2] at h; simp at h
              | ok os_family =>
                  rw [h2] at h
                  cases h3 : getAttrElem (e.find (fixxpath ["operatingSystem"] TYPES_URN)) "displayName" with
                  | error err => rw [h3] at h; simp at h
                  | ok os_display =>
                      rw [h3] at h
                      simp only [Except.ok.injEq] at h
                      subst h
                      exact ⟨rfl, gb, rfl, rfl⟩

/-- Claim C3: for a Node element that maps successfully, the private IP
is read from exactly one of the two shapes, selected by the presence of
the `networkInfo` subtree: present → `networkInfo/primaryNic/@privateIpv4`,
absent → `nic/@privateIpv4`. -/
theorem C3_private_ip_shapes (e : Xml) (n : Node) (h : _to_node e = .ok n) :
    (hasNetworkInfo e = true →
      ∃ ip, getAttrElem (e.find (fixxpath ["networkInfo", "primaryNic"] TYPES_URN)) "privateIpv4"
              = .ok ip ∧
        n.private_ips = optList ip) ∧
    (hasNetworkInfo e = false →
      ∃ ip, getAttrElem (e.find (fixxpath ["nic"] TYPES_URN)) "privateIpv4" = .ok ip ∧
        n.private_ips = optList ip) := by
  obtain ⟨extra, ip, hb, hip, hn⟩ := _to_node_ok e n h
  subst hn
  constructor
  · intro hni
    refine ⟨ip, ?_, rfl⟩
    rw [readPrivateIp, if_pos (by simp [hni])] at hip
    exact hip
  · intro hni
    refine ⟨ip, ?_, rfl⟩
    rw [readPrivateIp, if_neg (by simp [hni])] at hip
    exact hip

/-- Claim C4: for a Node element that maps successfully, the node state
is Running iff the `started` text field is `true`, and no state other
than Running or Terminated is ever produced. -/
theorem C4_started_state (e : Xml) (n : Node) (h : _to_node e = .ok n) :
    (n.state = .running ∨ n.state = .terminated) ∧
    (n.state = .running ↔ findtext e ["started"] TYPES_URN = some "true") := by
  obtain ⟨extra, ip, hb, hip, hn⟩ := _to_node_ok e n h
  subst hn
  by_cases hs : findtext e ["started"] TYPES_URN = some "true" <;> simp [hs]

/-- Claim C5: for a Node element that maps successfully, the cpu count is
the integer coercion of the `cpuCount` text and the `memoryMb` entry is
the integer coercion of the GB-denominated `memoryGb` text multiplied
by 1024. -/
theorem C5_numeric_coercions (e : Xml) (n : Node) (h : _to_node e = .ok n) :
    pyInt (findtext e ["cpuCount"] TYPES_URN) = .ok n.extra.cpuCount ∧
    ∃ gb, pyInt (findtext e ["memoryGb"] TYPES_URN) = .ok gb ∧ n.extra.memoryMb = gb * 1024 := by
  obtain ⟨extra, ip, hb, hip, hn⟩ := _to_node_ok e n h
  subst hn
  exact buildExtra_ok e _ extra hb

/-- A sample Server element in the legacy shape: no `networkInfo`
subtree, private IP on the single `nic` element. -/
def sampleServerNic : Xml :=
  .elem "Server" [("id", "SRV1"), ("datacenterId", "NA3")] none
    [ .elem (qt "name") [] (some "web1") []
    , .elem (qt "description") [] (some "machine") []
    , .elem (qt "sourceImageId") [] (some "IMG1") []
    , .elem (qt "networkId") [] (some "NET1") []
    , .elem (qt "createTime") [] (some "2015-08-11T16:51:05.000Z") []
    , .elem (qt "started") [] (some "true") []
    , .elem (qt "cpuCount") [] (some "2") []
    , .elem (qt "memoryGb") [] (some "4") []
    , .elem (qt "operatingSystem")
        [("id", "UBUNTU1464"), ("family", "UNIX"), ("displayName", "Ubuntu")] none []
    , .elem (qt "publicIpAddress") [] (some "168.128.1.1") []
    , .elem (qt "nic") [("privateIpv4", "10.0.0.5")] none [] ]

/-- The node `sampleServerNic` maps to. -/
def sampleNodeNic : Node :=
  { id := some "SRV1", name := some "web1", state := .running
    public_ips := ["168.128.1.1"], private_ips := ["10.0.0.5"]
    extra :=
      { description := some "machine", sourceImageId := some "IMG1"
        networkId := some "NET1", networkDomainId := none
        datacenterId := some "NA3", deployedTime := some "2015-08-11T16:51:05.000Z"
        cpuCount := 2, memoryMb := 4096, OS_id := some "UBUNTU1464"
        OS_type := some "UNIX", OS_displayName := some "Ubuntu", status := {} } }

/-- A sample Server element in the `networkInfo` shape: private IP on
`networkInfo/primaryNic`. -/
def sampleServerNI : Xml :=
  .elem "Server" [("id", "SRV2"), ("datacenterId", "NA5")] none
    [ .elem (qt "name") [] (some "web2") []
    , .elem (qt "started") [] (some "false") []
    , .elem (qt "cpuCount") [] (some "4") []
    , .elem (qt "memoryGb") [] (some "8") []
    , .elem (qt "operatingSystem")
        [("id", "WIN2012"), ("family", "WINDOWS"), ("displayName", "Win")] none []
    , .elem (qt "networkInfo") [("networkDomainId", "DOM1")] none
        [ .elem (qt "primaryNic") [("privateIpv4", "10.1.1.7")] none [] ] ]

/-- The node `sampleServerNI` maps to. -/
def sampleNodeNI : Node :=
  { id := some "SRV2", name := some "web2", state := .terminated
    public_ips := [], private_ips := ["10.1.1.7"]
    extra :=
      { description := none, sourceImageId := none
        networkId := none, networkDomainId := some "DOM1"
        datacenterId := some "NA5", deployedTime := none
        cpuCount := 4, memoryMb := 8192, OS_id := some "WIN2012"
        OS_type := some "WINDOWS", OS_displayName := some "Win", status := {} } }

/-- Witness for C3: on the `networkInfo`-shaped sample the private IP
comes from `networkInfo/primaryNic/@privateIpv4`. -/
theorem C3_witness :
    ∃ ip,
      getAttrElem (sampleServerNI.find (fixxpath ["networkInfo", "primaryNic"] TYPES_URN))
        "privateIpv4" = .ok ip ∧
      sampleNodeNI.private_ips = optList ip :=
  (C3_private_ip_shapes sampleServerNI sampleNodeNI (by rfl)).1 rfl

/-- Witness for C4: the `started=true` sample maps to the Running state. -/
theorem C4_witness :
    (sampleNodeNic.state = .running ∨ sampleNodeNic.state = .terminated) ∧
    (sampleNodeNic.state = .running ↔
      findtext sampleServerNic ["started"] TYPES_URN = some "true") :=
  C4_started_state sampleServerNic sampleNodeNic (by rfl)

/-- Witness for C5: cpuCount "2" coerces to 2 and memoryGb "4" maps to
4096 MB. -/
theorem C5_witness :
    (pyInt (findtext sampleServerNic ["cpuCount"] TYPES_URN) = .ok sampleNodeNic.extra.cpuCount ∧
     ∃ gb, pyInt (findtext sampleServerNic ["memoryGb"] TYPES_URN) = .ok gb ∧
       sampleNodeNic.extra.memoryMb = gb * 1024) ∧
    sampleNodeNic.extra.memoryMb = 4096 :=
  ⟨C5_numeric_coercions sampleServerNic sampleNodeNic (by rfl), rfl⟩

/-- A connection whose datacenter listing contains no datacenters. -/
def noLocConn : Request → Xml := fun _ => emptyDoc

/-- Counterexample to C6 as stated: against a location listing with no
matching element, `ex_get_location_by_id` crashes with an `IndexError`
(the `list(filter(...))[0]` pattern) instead of returning a not-found
result. -/
theorem C6_counterexample :
    list_locations noLocConn = [] ∧
    (ex_get_location_by_id noLocConn (some "LOC1")).1 = .error .indexError :=
  ⟨rfl, rfl⟩

/-- Claim C6 (amended): resolving an id against the freshly fetched
location list returns the unique Location whose id equals the identifier
when exactly one matches; when no element matches the lookup raises an
`IndexError` (it does not return a not-found result). -/
theorem C6_location_resolution (conn : Request → Xml) (i : String) :
    (∀ l, l ∈ list_locations conn → l.id = some i →
      (∀ l' ∈ list_locations conn, l'.id = some i → l' = l) →
      (ex_get_location_by_id conn (some i)).1 = .ok (some l)) ∧
    ((∀ l ∈ list_locations conn, l.id ≠ some i) →
      (ex_get_location_by_id conn (some i)).1 = .error .indexError) := by
  constructor
  · intro l hmem hid huniq
    have hfilter : ((list_locations conn).filter (fun x => x.id == some i)).head? = some l := by
      cases hf : (list_locations conn).filter (fun x => x.id == some i) with
      | nil =>
          have : l ∈ (list_locations conn).filter (fun x => x.id == some i) :=
            List.mem_filter.mpr ⟨hmem, by simp [hid]⟩
          rw [hf] at this
          simp at this
      | cons a t =>
          have ha : a ∈ (list_locations conn).filter (fun x => x.id == some i) := by
            rw [hf]; exact List.mem_cons_self a t
          have ha' := List.mem_filter.mp ha
          have : a = l := huniq a ha'.1 (by simpa using ha'.2)
          simp [this]
    simp [ex_get_location_by_id, hfilter]
  · intro hnone
    have hfilter : (list_locations conn).filter (fun x => x.id == some i) = [] := by
      rw [List.filter_eq_nil_iff]
      intro a ha
      simpa using hnone a ha
    simp [ex_get_location_by_id, hfilter]

/-- A datacenter listing with exactly one datacenter, id `NA1`. -/
def oneLocDoc : Xml :=
  .elem "datacenters" [] none
    [ .elem (qt "datacenter") [("id", "NA1")] none
        [ .elem (qt "displayName") [] (some "US - East") []
        , .elem (qt "country") [] (some "US") [] ] ]

/-- A connection serving `oneLocDoc` as the location listing. -/
def oneLocConn : Request → Xml := fun _ => oneLocDoc

/-- The location `oneLocDoc` maps to. -/
def loc1 : NodeLocation :=
  { id := some "NA1", name := some "US - East", country := some "US" }

/-- Witness for C6 (amended): the unique matching location is returned. -/
theorem C6_witness :
    (ex_get_location_by_id oneLocConn (some "NA1")).1 = .ok (some loc1) :=
  (C6_location_resolution oneLocConn "NA1").1 loc1 (by decide) (by decide) (by decide)

/-- Claim C7: a `create_node` call with a simple network builds a
`deployServer` document containing a `name` element with the given name,
an `imageId` element with the image id, a `start` element whose text is
the lowercase serialization of the start flag, and a `network` element
containing a `networkId` element with the network's id; after
submission, the `serverId` value extracted from the response's `info`
elements is used to fetch the full node by id. -/
theorem C7_deploy_request (conn : Request → Xml) (args : CreateArgs)
    (net : DimensionDataNetwork)
    (hnet : args.ex_network = .network net)
    (hdom : args.ex_network_domain = .pyNone) :
    ∃ doc : Xml,
      buildDeployServer args = .ok doc ∧
      doc.tag = "deployServer" ∧
      mkTextElem "name" args.name ∈ doc.children ∧
      mkTextElem "imageId" args.image_id ∈ doc.children ∧
      mkTextElem "start" (if args.ex_is_started then "true" else "false") ∈ doc.children ∧
      Xml.elem "network" [] none [mkTextElem "networkId" net.id] ∈ doc.children ∧
      (create_node conn args).2 =
        [ { path := "server/deployServer", method := "POST", data := some doc }
        , getServerReq (extractServerId
            (conn { path := "server/deployServer", method := "POST", data := some doc })) ] := by
  have hb : buildDeployServer args =
      .ok (Xml.elem "deployServer" [("xmlns", TYPES_URN)] none
        ([ mkTextElem "name" args.name
         , mkTextElem "description" args.ex_description
         , mkTextElem "imageId" args.image_id
         , mkTextElem "start" (pyBoolStr args.ex_is_started)
         , mkTextElem "administratorPassword" args.password ] ++
         [Xml.elem "network" [] none [mkTextElem "networkId" net.id]])) := by
    unfold buildDeployServer
    rw [hnet, hdom]
    rfl
  refine ⟨_, hb, rfl, ?_, ?_, ?_, ?_, ?_⟩
  · simp [Xml.children]
  · simp [Xml.children]
  · simp [Xml.children, pyBoolStr]
  · simp [Xml.children]
  · simp only [create_node, hnet, isNetwork, Bool.not_true, Bool.false_and, Bool.false_eq_true,
      if_false, ite_false]
    rw [hb]

/-- A simple network used in the deploy scenario. -/
def net7 : DimensionDataNetwork := { id := "NET1", name := "net1" }

/-- The deploy arguments of the end-to-end scenario: name `web1`, image
`IMG1`, simple network `NET1`, start flag set. -/
def args7 : CreateArgs :=
  { name := "web1", ex_description := "desc", image_id := "IMG1", password := "pw"
    generated := false, ex_network := .network net7
    ex_network_domain := .pyNone, ex_vlan := none, ex_is_started := true }

/-- The deploy response of the scenario: `info[@name=serverId]/@value = SRV1`. -/
def deployResp7 : Xml :=
  .elem "response" [] none
    [ .elem (qt "info") [("name", "serverId"), ("value", "SRV1")] none [] ]

/-- A connection serving the deploy response for the deploy request and a
Server document for everything else. -/
def conn7 : Request → Xml := fun req =>
  if req.path == "server/deployServer" then deployResp7 else sampleServerNic

/-- Witness for C7: the end-to-end scenario; the follow-up fetch goes to
`server/server/SRV1`. -/
theorem C7_witness :
    (∃ doc : Xml,
      buildDeployServer args7 = .ok doc ∧
      doc.tag = "deployServer" ∧
      mkTextElem "name" args7.name ∈ doc.children ∧
      mkTextElem "imageId" args7.image_id ∈ doc.children ∧
      mkTextElem "start" (if args7.ex_is_started then "true" else "false") ∈ doc.children ∧
      Xml.elem "network" [] none [mkTextElem "networkId" net7.id] ∈ doc.children ∧
      (create_node conn7 args7).2 =
        [ { path := "server/deployServer", method := "POST", data := some doc }
        , getServerReq (extractServerId
            (conn7 { path := "server/deployServer", method := "POST", data := some doc })) ]) ∧
    (create_node conn7 args7).2.map Request.path =
      ["server/deployServer", "server/server/SRV1"] :=
  ⟨C7_deploy_request conn7 args7 net7 rfl rfl, rfl⟩

/-- Claim C9: when both a valid network and a valid network domain (with
a vlan) are supplied, `create_node` is not rejected: the built payload
contains both the `network/networkId` element and the `networkInfo`
element with its `primaryNic/vlanId`, and both requests of the two-step
round trip are issued. -/
theorem C9_both_modes_accepted (conn : Request → Xml) (args : CreateArgs)
    (net : DimensionDataNetwork) (dom : DimensionDataNetworkDomain) (vlan : DimensionDataVlan)
    (hnet : args.ex_network = .network net)
    (hdom : args.ex_network_domain = .networkDomain dom)
    (hvlan : args.ex_vlan = some vlan) :
    ∃ doc : Xml,
      buildDeployServer args = .ok doc ∧
      Xml.elem "network" [] none [mkTextElem "networkId" net.id] ∈ doc.children ∧
      Xml.elem "networkInfo" [("networkDomainId", dom.id)] none
        [Xml.elem "primaryNic" [] none [mkTextElem "vlanId" vlan.id]] ∈ doc.children ∧
      (create_node conn args).2.length = 2 := by
  have hb : buildDeployServer args =
      .ok (Xml.elem "deployServer" [("xmlns", TYPES_URN)] none
        (([ mkTextElem "name" args.name
          , mkTextElem "description" args.ex_description
          , mkTextElem "imageId" args.image_id
          , mkTextElem "start" (pyBoolStr args.ex_is_started)
          , mkTextElem "administratorPassword" args.password ] ++
          [Xml.elem "network" [] none [mkTextElem "networkId" net.id]]) ++
         [Xml.elem "networkInfo" [("networkDomainId", dom.id)] none
           [Xml.elem "primaryNic" [] none [mkTextElem "vlanId" vlan.id]]])) := by
    unfold buildDeployServer
    rw [hnet, hdom, hvlan]
    rfl
  refine ⟨_, hb, ?_, ?_, ?_⟩
  · simp [Xml.children]
  · simp [Xml.children]
  · simp only [create_node, hnet, isNetwork, Bool.not_true, Bool.false_and, Bool.false_eq_true,
      if_false, ite_false]
    rw [hb]
    rfl

/-- The network domain of the dual-mode scenario. -/
def dom9 : DimensionDataNetworkDomain := { id := "DOM1", name := "dom1" }

/-- The vlan of the dual-mode scenario. -/
def vlan9 : DimensionDataVlan := { id := "VLAN1", name := "vlan1" }

/-- Deploy arguments supplying both a valid network and a valid network
domain with a vlan. -/
def args9 : CreateArgs :=
  { name := "web2", ex_description := "d", image_id := "IMG2", password := "pw"
    generated := false, ex_network := .network net7
    ex_network_domain := .networkDomain dom9, ex_vlan := some vlan9, ex_is_started := false }

/-- Witness for C9: both attachment shapes end up in the payload and the
call is not rejected. -/
theorem C9_witness :
    ∃ doc : Xml,
      buildDeployServer args9 = .ok doc ∧
      Xml.elem "network" [] none [mkTextElem "networkId" net7.id] ∈ doc.children ∧
      Xml.elem "networkInfo" [("networkDomainId", dom9.id)] none
        [Xml.elem "primaryNic" [] none [mkTextElem "vlanId" vlan9.id]] ∈ doc.children ∧
      (create_node conn7 args9).2.length = 2 :=
  C9_both_modes_accepted conn7 args9 net7 dom9 vlan9 rfl rfl rfl

/-- Claim C10: `ex_get_location_by_id` with a `None` id returns `None`
without performing any remote call; the lookup against the freshly
fetched location list (one `infrastructure/datacenter` request) happens
only for a non-`None` id. -/
theorem C10_none_short_circuit :
    (∀ conn : Request → Xml, ex_get_location_by_id conn none = (.ok none, [])) ∧
    (∀ (conn : Request → Xml) (i : String),
      (ex_get_location_by_id conn (some i)).2 = [listLocationsReq]) := by
  constructor
  · intro conn
    rfl
  · intro conn i
    simp only [ex_get_location_by_id]
    cases ((list_locations conn).filter (fun x => x.id == some i)).head? <;> rfl

end DD
